import Mathlib

/-!
Shallow embedding of the smart-city telemetry simulator and its streaming
validator.  Python floats are modelled as rationals, Python `int` as `ℤ` or
`ℕ`, and every random draw is passed in explicitly as an oracle value whose
admissible range mirrors the distribution used by the source.
-/

/-- Python `round` applied to a nonnegative-scale context: round half to even
on a rational, returning the nearest integer (banker's rounding, as Python's
builtin `round` does). -/
def pyRoundInt (x : ℚ) : ℤ :=
  if x - ⌊x⌋ < 1/2 then ⌊x⌋
  else if 1/2 < x - ⌊x⌋ then ⌊x⌋ + 1
  else if 2 ∣ ⌊x⌋ then ⌊x⌋ else ⌊x⌋ + 1

/-- Python `round(x, n)`: round `x` to `n` decimal digits, half to even. -/
def pyRound (x : ℚ) (n : ℕ) : ℚ :=
  (pyRoundInt (x * 10 ^ n) : ℚ) / 10 ^ n

/-- Python `int(x)` on a float: truncation toward zero. -/
def pyTrunc (x : ℚ) : ℤ :=
  if x < 0 then ⌈x⌉ else ⌊x⌋

/-! ## Grid builder (`CityGrid._generate_intersections`) -/

/-- The per-district constants of the `districts` dict: traffic multiplier
and camera probability. -/
def districtsConfig : List (String × ℚ × ℚ) :=
  [("downtown", (1.5, 0.8)),
   ("residential", (0.7, 0.3)),
   ("industrial", (1.2, 0.5)),
   ("suburban", (0.5, 0.2))]

/-- District of cell `(i, j)`: the source computes
`distance = math.sqrt(i**2 + j**2)` and compares it with 3, 5 and 7; since
`sqrt` is monotone and `i*i + j*j` is a nonnegative integer, the comparisons
are embedded as `i*i + j*j < 9`, `< 25`, `< 49`. -/
def districtOf (i j : ℕ) : String :=
  if i * i + j * j < 9 then "downtown"
  else if i * i + j * j < 25 then "residential"
  else if i * i + j * j < 49 then "industrial"
  else "suburban"

/-- Little-endian decimal digits of `n`, with explicit fuel so that the
recursion is structural (the fuel `n` itself always suffices). -/
def digitsAux : ℕ → ℕ → List ℕ
  | 0, _ => []
  | fuel + 1, n => if n = 0 then [] else n % 10 :: digitsAux fuel (n / 10)

/-- Little-endian decimal digit list of `n` (empty for `0`). -/
def digitsLE (n : ℕ) : List ℕ :=
  digitsAux n n

/-- Big-endian decimal digit list of `n` (empty for `0`). -/
def digitsBE (n : ℕ) : List ℕ :=
  (digitsLE n).reverse

/-- Python `f"{n:02d}"` as a digit list: the decimal digits of `n`,
left-padded with zeros to length at least 2. -/
def pad2 (n : ℕ) : List ℕ :=
  List.replicate (2 - (digitsBE n).length) 0 ++ digitsBE n

/-- The digit list rendered with ASCII digit characters. -/
def pad2Chars (n : ℕ) : List Char :=
  (pad2 n).map Nat.digitChar

/-- The source's `f"INT-{i:02d}{j:02d}"`. -/
def intersectionId (i j : ℕ) : String :=
  String.mk ("INT-".data ++ pad2Chars i ++ pad2Chars j)

/-- The source's `f"{chr(65+i)} St & {j+1} Ave"`. -/
def intersectionName (i j : ℕ) : String :=
  String.mk [Char.ofNat (65 + i)] ++ " St & " ++ toString (j + 1) ++ " Ave"

structure Intersection where
  intersection_id : String
  name : String
  latitude : ℚ
  longitude : ℚ
  lanes_north_south : ℕ
  lanes_east_west : ℕ
  has_camera : Bool
  district : String
  deriving Repr, DecidableEq

/-- Per-cell random draws of the grid builder: the two
`random.choice([2, 3, 4])` results and the `random.random()` roll compared
against the district's camera probability. -/
structure CellRand where
  lanesNS : ℕ
  lanesEW : ℕ
  cameraRoll : ℚ
  deriving Repr, DecidableEq

/-- The body of the nested loops of `_generate_intersections` for one cell
`(i, j)` of an `N × N` grid centred at `(latBase, lonBase)`. -/
def mkIntersection (latBase lonBase : ℚ) (N i j : ℕ) (r : CellRand) :
    Intersection :=
  let lat : ℚ := latBase + ((i : ℚ) - (N : ℚ) / 2) * (1 / 100)
  let lon : ℚ := lonBase + ((j : ℚ) - (N : ℚ) / 2) * (1 / 100)
  let district := districtOf i j
  let cfg := (districtsConfig.lookup district).getD (0, 0)
  { intersection_id := intersectionId i j
    name := intersectionName i j
    latitude := pyRound lat 6
    longitude := pyRound lon 6
    lanes_north_south := r.lanesNS
    lanes_east_west := r.lanesEW
    has_camera := decide (r.cameraRoll < cfg.2)
    district := district }

/-- `CityGrid._generate_intersections`: the nested `for i` / `for j` loops
over `range(grid_size)`, appending one intersection per cell.  The random
draws are supplied by the oracle `o`. -/
def generate_intersections (latBase lonBase : ℚ) (N : ℕ)
    (o : ℕ → ℕ → CellRand) : List Intersection :=
  (List.range N).flatMap fun i =>
    (List.range N).map fun j => mkIntersection latBase lonBase N i j (o i j)

/-- Modelled from the spec (for comparison with `districtOf` only): district
of cell `(i, j)` by Euclidean distance from the grid's geometric centre
`(N/2, N/2)`, the point the source's latitude/longitude offsets
`(i - grid_size/2) * 0.01` place at the city centre; thresholds 3, 5, 7
compared on squared distances. -/
def districtSpecCenter (N i j : ℕ) : String :=
  let d2 : ℚ := ((i : ℚ) - (N : ℚ) / 2) ^ 2 + ((j : ℚ) - (N : ℚ) / 2) ^ 2
  if d2 < 9 then "downtown"
  else if d2 < 25 then "residential"
  else if d2 < 49 then "industrial"
  else "suburban"

/-! ## Traffic simulator (`TrafficSimulator`) -/

/-- The `time_of_day_patterns` dict in insertion order:
`(label, start_hour, end_hour, multiplier)`. -/
def time_of_day_patterns : List (String × ℕ × ℕ × ℚ) :=
  [("night", (0, 6, 0.2)),
   ("morning_rush", (6, 9, 1.5)),
   ("midday", (9, 16, 0.8)),
   ("evening_rush", (16, 19, 1.6)),
   ("evening", (19, 24, 0.6))]

/-- The loop of `get_traffic_multiplier`: the first pattern whose
`start_hour <= hour < end_hour` yields its multiplier; `none` when no band
matches. -/
def timeBandMult (hour : ℕ) : Option ℚ :=
  (time_of_day_patterns.find? fun p =>
    decide (p.2.1 ≤ hour) && decide (hour < p.2.2.1)).map fun p => p.2.2.2

/-- `TrafficSimulator.get_traffic_multiplier`: matched band multiplier times
the `random.uniform(0.8, 1.2)` draw `u`, defaulting to `1.0` when no band
matched. -/
def get_traffic_multiplier (hour : ℕ) (u : ℚ) : ℚ :=
  match timeBandMult hour with
  | some m => m * u
  | none => 1

/-- The `weather_conditions` dict of `get_weather_impact`. -/
def weather_conditions : List (String × ℚ) :=
  [("clear", 1.0), ("rain", 0.7), ("heavy_rain", 0.5),
   ("snow", 0.4), ("fog", 0.6)]

/-- `TrafficSimulator.get_weather_impact`: impact of the condition chosen by
`random.choices` over the keys of `weather_conditions` (the chosen key `c` is
the oracle; indexing a chosen key never misses, so the `getD 0` default is
unreachable for valid draws). -/
def get_weather_impact (c : String) : ℚ :=
  (weather_conditions.lookup c).getD 0

/-- The `district_multipliers` dict inside `generate_reading` (indexing with
an unknown district would raise `KeyError` in the source; the `getD 0`
default is unreachable for grid-generated districts). -/
def district_multipliers (d : String) : ℚ :=
  (([("downtown", 1.5), ("residential", 0.7), ("industrial", 1.2),
     ("suburban", 0.5)] : List (String × ℚ)).lookup d).getD 0

/-- The `vehicle_types` dict of a reading, with its four fixed keys. -/
structure VehicleTypes where
  car : ℤ
  truck : ℤ
  motorcycle : ℤ
  bus : ℤ
  deriving Repr, DecidableEq

structure TrafficReading where
  sensor_id : String
  intersection_id : String
  timestamp : String
  vehicle_count : ℤ
  average_speed : ℚ
  occupancy_rate : ℚ
  vehicle_types : VehicleTypes
  wait_time_seconds : ℚ
  queue_length : ℤ
  signal_state : String
  latitude : ℚ
  longitude : ℚ
  district : String
  deriving Repr, DecidableEq

/-- The slice of a `datetime` value that `generate_reading` uses: its hour
and its `isoformat()` string. -/
structure PyDateTime where
  hour : ℕ
  iso : String
  deriving Repr, DecidableEq

/-- One outcome of the random draws inside `generate_reading` (and the
`get_traffic_multiplier` / `get_weather_impact` calls it makes). -/
structure ReadRand where
  tmU : ℚ
  weatherCond : String
  jitter : ℤ
  fCar : ℚ
  fTruck : ℚ
  fMoto : ℚ
  fBus : ℚ
  waitU : ℚ
  signal : String
  deriving Repr, DecidableEq

/-- Admissible ranges of the draws, matching the distributions in the
source: `uniform(0.8, 1.2)`, a key of `weather_conditions`,
`randint(-5, 5)`, `uniform(0.75, 0.85)`, `uniform(0.05, 0.12)`,
`uniform(0.02, 0.05)`, `uniform(0.01, 0.03)`, `uniform(30, 120)` and a
choice among the three signal states. -/
def ReadRand.Valid (r : ReadRand) : Prop :=
  0.8 ≤ r.tmU ∧ r.tmU ≤ 1.2 ∧
  r.weatherCond ∈ ["clear", "rain", "heavy_rain", "snow", "fog"] ∧
  -5 ≤ r.jitter ∧ r.jitter ≤ 5 ∧
  0.75 ≤ r.fCar ∧ r.fCar ≤ 0.85 ∧
  0.05 ≤ r.fTruck ∧ r.fTruck ≤ 0.12 ∧
  0.02 ≤ r.fMoto ∧ r.fMoto ≤ 0.05 ∧
  0.01 ≤ r.fBus ∧ r.fBus ≤ 0.03 ∧
  30 ≤ r.waitU ∧ r.waitU ≤ 120 ∧
  r.signal ∈ ["red", "yellow", "green"]

instance (r : ReadRand) : Decidable r.Valid := by
  unfold ReadRand.Valid; infer_instance

/-- `TrafficSimulator.generate_reading`, line by line. -/
def generate_reading (inter : Intersection) (ts : PyDateTime) (r : ReadRand) :
    TrafficReading :=
  let base_capacity : ℤ := ((inter.lanes_north_south : ℤ) + inter.lanes_east_west) * 10
  let time_multiplier := get_traffic_multiplier ts.hour r.tmU
  let district_mult := district_multipliers inter.district
  let weather_mult := get_weather_impact r.weatherCond
  let vehicle_count0 : ℤ := pyTrunc ((base_capacity : ℚ) * time_multiplier * district_mult * weather_mult)
  let vehicle_count : ℤ := max 0 (vehicle_count0 + r.jitter)
  let max_capacity : ℤ := base_capacity * 2
  let occupancy_rate : ℚ := min 1 ((vehicle_count : ℚ) / (max_capacity : ℚ))
  let base_speed : ℚ := 35
  let average_speed0 : ℚ := base_speed * (1 - occupancy_rate * 0.7)
  let average_speed : ℚ := max 5 average_speed0
  let total_vehicles := vehicle_count
  let truck : ℤ := pyTrunc ((total_vehicles : ℚ) * r.fTruck)
  let motorcycle : ℤ := pyTrunc ((total_vehicles : ℚ) * r.fMoto)
  let bus : ℤ := pyTrunc ((total_vehicles : ℚ) * r.fBus)
  let car : ℤ := total_vehicles - (truck + motorcycle + bus)
  let wait_time : ℚ := occupancy_rate * r.waitU
  let queue_length : ℤ := pyTrunc (occupancy_rate * (base_capacity : ℚ) * 0.5)
  { sensor_id := inter.intersection_id ++ "-SENSOR-01"
    intersection_id := inter.intersection_id
    timestamp := ts.iso
    vehicle_count := vehicle_count
    average_speed := pyRound average_speed 2
    occupancy_rate := pyRound occupancy_rate 3
    vehicle_types :=
      { car := car, truck := truck, motorcycle := motorcycle, bus := bus }
    wait_time_seconds := pyRound wait_time 1
    queue_length := queue_length
    signal_state := r.signal
    latitude := inter.latitude
    longitude := inter.longitude
    district := inter.district }

/-! ## Weather simulator (`WeatherSimulator`) -/

structure WeatherReading where
  station_id : String
  timestamp : String
  temperature_f : ℚ
  humidity : ℚ
  precipitation_rate : ℚ
  visibility_miles : ℚ
  wind_speed_mph : ℚ
  condition : String
  latitude : ℚ
  longitude : ℚ
  deriving Repr, DecidableEq

/-- The mutable state of `WeatherSimulator`: `current_condition` and
`condition_duration` (a Python `int`). -/
structure WeatherState where
  current_condition : String
  condition_duration : ℤ
  deriving Repr, DecidableEq

/-- The state set by `WeatherSimulator.__init__`. -/
def weatherInit : WeatherState :=
  { current_condition := "clear", condition_duration := 0 }

/-- One outcome of the random draws inside `generate_weather`. -/
structure WRand where
  newCond : String
  newDur : ℤ
  tempU : ℚ
  humU : ℚ
  precipU : ℚ
  visU : ℚ
  windU : ℚ
  iso : String
  deriving Repr, DecidableEq

/-- Admissible ranges of the draws of `generate_weather`: the
`random.choices` pick among the six conditions, `randint(4, 20)`, and the
uniform draws `uniform(*params[...])` as fractions of their ranges
(`tempU`, `humU` in `[0, 1]`), `uniform(0.8, 1.2)`, `uniform(0.9, 1.1)`,
`uniform(0, 25)`. -/
def WRand.Valid (r : WRand) : Prop :=
  r.newCond ∈ ["clear", "cloudy", "rain", "heavy_rain", "snow", "fog"] ∧
  4 ≤ r.newDur ∧ r.newDur ≤ 20 ∧
  0 ≤ r.tempU ∧ r.tempU ≤ 1 ∧
  0 ≤ r.humU ∧ r.humU ≤ 1 ∧
  0.8 ≤ r.precipU ∧ r.precipU ≤ 1.2 ∧
  0.9 ≤ r.visU ∧ r.visU ≤ 1.1 ∧
  0 ≤ r.windU ∧ r.windU ≤ 25

instance (r : WRand) : Decidable r.Valid := by
  unfold WRand.Valid; infer_instance

/-- The `condition_params` dict: temperature range, humidity range,
precipitation base and visibility base for each condition. -/
def condition_params : List (String × (ℚ × ℚ) × (ℚ × ℚ) × ℚ × ℚ) :=
  [("clear", ((65, 85), (0.3, 0.5), 0, 10)),
   ("cloudy", ((60, 75), (0.5, 0.7), 0, 10)),
   ("rain", ((55, 70), (0.7, 0.9), 0.1, 5)),
   ("heavy_rain", ((50, 65), (0.85, 0.95), 0.5, 2)),
   ("snow", ((20, 35), (0.7, 0.9), 0.2, 3)),
   ("fog", ((55, 65), (0.9, 1.0), 0, 0.5))]

/-- `WeatherSimulator.generate_weather`: returns the updated state together
with the emitted reading.  When the duration counter is zero a new condition
and a duration in `[4, 20]` are drawn first; the duration is then
decremented and the reading is emitted from the (possibly redrawn) current
condition.  A uniform draw `uniform(a, b)` is embedded as `a + u * (b - a)`
with the fraction `u` supplied by the oracle. -/
def generate_weather (s : WeatherState) (r : WRand) :
    WeatherState × WeatherReading :=
  let cond := if s.condition_duration = 0 then r.newCond else s.current_condition
  let dur0 : ℤ := if s.condition_duration = 0 then r.newDur else s.condition_duration
  let dur := dur0 - 1
  let params := (condition_params.lookup cond).getD ((0, 0), (0, 0), 0, 0)
  let temp := params.1.1 + r.tempU * (params.1.2 - params.1.1)
  let hum := params.2.1.1 + r.humU * (params.2.1.2 - params.2.1.1)
  ({ current_condition := cond, condition_duration := dur },
   { station_id := "WEATHER-CENTRAL-01"
     timestamp := r.iso
     temperature_f := pyRound temp 1
     humidity := pyRound hum 2
     precipitation_rate := params.2.2.1 * r.precipU
     visibility_miles := params.2.2.2 * r.visU
     wind_speed_mph := pyRound r.windU 1
     condition := cond
     latitude := 40.7128
     longitude := -74.006 })

/-- A run of the weather simulator: fold `generate_weather` over a list of
oracle outcomes, keeping only the state. -/
def runWeather (s : WeatherState) (rs : List WRand) : WeatherState :=
  rs.foldl (fun st r => (generate_weather st r).1) s

/-! ## Batch publisher (`EventHubPublisher.send_batch`) -/

/-- The loop of `send_batch` over the remaining readings, carrying the
current batch.  `size x` is the serialized size of `x` and `cap` the
channel's maximum batch capacity; `EventDataBatch.add` raises `ValueError`
exactly when adding the item would push the batch past `cap`.  On such an
overflow the current batch is sent and a fresh batch is started with the
item; if the item does not fit even in a fresh batch, the second `add` is
outside any `try` and the uncaught `ValueError` is modelled as `none`.
After the loop, a final non-empty batch is sent. -/
def sendBatchGo (cap : ℕ) (size : α → ℕ) : List α → List α → Option (List (List α))
  | [], cur => some (if cur.length > 0 then [cur] else [])
  | x :: xs, cur =>
    if (cur.map size).sum + size x ≤ cap then
      sendBatchGo cap size xs (cur ++ [x])
    else if size x ≤ cap then
      (sendBatchGo cap size xs [x]).map fun bs => cur :: bs
    else
      none

/-- `EventHubPublisher.send_batch`: the batches sent, in order. -/
def send_batch (cap : ℕ) (size : α → ℕ) (readings : List α) :
    Option (List (List α)) :=
  sendBatchGo cap size readings []

/-! ## Streaming validator (`TrafficDataValidator._validate_schema`) -/

/-- A Python runtime value as the validator sees one: the payload types the
wire format can carry.  `pyBool` is separate because Python's `bool` is a
subclass of `int`, which `isinstance` honours. -/
inductive PyVal where
  | pyStr (s : String)
  | pyInt (z : ℤ)
  | pyBool (b : Bool)
  | pyFloat (q : ℚ)
  | pyDict (entries : List (String × ℤ))
  | pyNone
  deriving Repr, DecidableEq

/-- The expected-type side of `REQUIRED_FIELDS`. -/
inductive PyType where
  | tStr
  | tInt
  | tFloat
  | tDict
  deriving Repr, DecidableEq

/-- Python `isinstance(v, t)` for the types in `REQUIRED_FIELDS`; note
`isinstance(True, int)` is `True` (bool subclasses int) while
`isinstance(1, float)` and `isinstance(True, float)` are `False`. -/
def isinst : PyVal → PyType → Bool
  | PyVal.pyStr _, PyType.tStr => true
  | PyVal.pyInt _, PyType.tInt => true
  | PyVal.pyBool _, PyType.tInt => true
  | PyVal.pyFloat _, PyType.tFloat => true
  | PyVal.pyDict _, PyType.tDict => true
  | _, _ => false

/-- `TrafficDataValidator.REQUIRED_FIELDS`, in declaration order. -/
def REQUIRED_FIELDS : List (String × PyType) :=
  [("sensor_id", PyType.tStr),
   ("intersection_id", PyType.tStr),
   ("timestamp", PyType.tStr),
   ("vehicle_count", PyType.tInt),
   ("average_speed", PyType.tFloat),
   ("occupancy_rate", PyType.tFloat),
   ("vehicle_types", PyType.tDict),
   ("wait_time_seconds", PyType.tFloat),
   ("queue_length", PyType.tInt),
   ("signal_state", PyType.tStr),
   ("latitude", PyType.tFloat),
   ("longitude", PyType.tFloat),
   ("district", PyType.tStr)]

/-- A message: the keyed flat structure the validator receives (`field in
message` is lookup success). -/
def Message := List (String × PyVal)

/-- Rendering of Python's `type(value)` for the error text. -/
def pyTypeName : PyVal → String
  | PyVal.pyStr _ => "<class 'str'>"
  | PyVal.pyInt _ => "<class 'int'>"
  | PyVal.pyBool _ => "<class 'bool'>"
  | PyVal.pyFloat _ => "<class 'float'>"
  | PyVal.pyDict _ => "<class 'dict'>"
  | PyVal.pyNone => "<class 'NoneType'>"

/-- Rendering of the expected type for the error text. -/
def expTypeName : PyType → String
  | PyType.tStr => "<class 'str'>"
  | PyType.tInt => "<class 'int'>"
  | PyType.tFloat => "<class 'float'>"
  | PyType.tDict => "<class 'dict'>"

/-- The single categorized error the loop body of `_validate_schema`
produces for one required field: missing, null, type mismatch, or none. -/
def checkField (msg : Message) (fld : String × PyType) : Option String :=
  match List.lookup fld.1 msg with
  | none => some ("Missing field: " ++ fld.1)
  | some v =>
    if v = PyVal.pyNone then some ("Null field: " ++ fld.1)
    else if isinst v fld.2 then none
    else some ("Invalid type for field " ++ fld.1 ++ ": " ++ pyTypeName v ++
      " (expected " ++ expTypeName fld.2 ++ ")")

/-- The loop of `_validate_schema` over a field list: every field is
examined and each violation appends one error (`continue` moves to the next
field either way). -/
def validateSchemaAux (msg : Message) : List (String × PyType) → List String
  | [] => []
  | fld :: rest =>
    match List.lookup fld.1 msg with
    | none => ("Missing field: " ++ fld.1) :: validateSchemaAux msg rest
    | some v =>
      if v = PyVal.pyNone then
        ("Null field: " ++ fld.1) :: validateSchemaAux msg rest
      else if isinst v fld.2 then validateSchemaAux msg rest
      else
        ("Invalid type for field " ++ fld.1 ++ ": " ++ pyTypeName v ++
          " (expected " ++ expTypeName fld.2 ++ ")") :: validateSchemaAux msg rest

/-- `TrafficDataValidator._validate_schema`. -/
def validate_schema (msg : Message) : List String :=
  validateSchemaAux msg REQUIRED_FIELDS

/-- Value of a little-endian digit list (the inverse of `digitsLE`, used to
show the padded identifiers are injective). -/
def decodeLE (l : List ℕ) : ℕ :=
  l.foldr (fun d acc => d + 10 * acc) 0

/-- A message carrying every required field except `sensor_id`, each with a
value of the expected type. -/
def msgMissingSensorId : Message :=
  [("intersection_id", PyVal.pyStr "INT-0501"),
   ("timestamp", PyVal.pyStr "2025-01-01T00:00:00"),
   ("vehicle_count", PyVal.pyInt 10),
   ("average_speed", PyVal.pyFloat 25),
   ("occupancy_rate", PyVal.pyFloat 0),
   ("vehicle_types", PyVal.pyDict [("car", 10)]),
   ("wait_time_seconds", PyVal.pyFloat 10),
   ("queue_length", PyVal.pyInt 2),
   ("signal_state", PyVal.pyStr "red"),
   ("latitude", PyVal.pyFloat 40),
   ("longitude", PyVal.pyFloat (-74)),
   ("district", PyVal.pyStr "downtown")]

/-! ## Arithmetic facts about the Python rounding helpers -/

theorem le_pyRoundInt {A : ℤ} {x : ℚ} (h : (A : ℚ) ≤ x) : A ≤ pyRoundInt x := by
  have hA : A ≤ ⌊x⌋ := Int.le_floor.mpr h
  unfold pyRoundInt
  split
  · exact hA
  split
  · omega
  split <;> omega

theorem pyRoundInt_le {x : ℚ} {B : ℤ} (h : x ≤ (B : ℚ)) : pyRoundInt x ≤ B := by
  have hfB : ⌊x⌋ ≤ B := by
    have := Int.floor_le_floor h
    simpa using this
  have hxf : (⌊x⌋ : ℚ) ≤ x := Int.floor_le x
  have hsucc : ¬ x - ⌊x⌋ < 1/2 → ⌊x⌋ + 1 ≤ B := by
    intro h1
    have hhalf : (1 : ℚ)/2 ≤ x - ⌊x⌋ := le_of_not_lt h1
    by_contra hcon
    have hBf : B ≤ ⌊x⌋ := by omega
    have : (B : ℚ) ≤ (⌊x⌋ : ℚ) := by exact_mod_cast hBf
    linarith
  unfold pyRoundInt
  split
  · exact hfB
  next h1 =>
    split
    · exact hsucc h1
    split
    · exact hfB
    · exact hsucc h1

theorem le_pyRound {A : ℤ} {x : ℚ} {n : ℕ} (h : (A : ℚ) ≤ x) :
    (A : ℚ) ≤ pyRound x n := by
  have hp : (0 : ℚ) < 10 ^ n := by positivity
  have h1 : (A : ℚ) * 10 ^ n ≤ x * 10 ^ n := by
    exact mul_le_mul_of_nonneg_right h (le_of_lt hp)
  have h2 : (A * 10 ^ n : ℤ) ≤ pyRoundInt (x * 10 ^ n) := by
    apply le_pyRoundInt
    push_cast
    linarith
  have h3 : ((A * 10 ^ n : ℤ) : ℚ) ≤ (pyRoundInt (x * 10 ^ n) : ℚ) := by
    exact_mod_cast h2
  unfold pyRound
  rw [le_div_iff hp]
  push_cast at h3 ⊢
  linarith

theorem pyRound_le {x : ℚ} {B : ℤ} {n : ℕ} (h : x ≤ (B : ℚ)) :
    pyRound x n ≤ (B : ℚ) := by
  have hp : (0 : ℚ) < 10 ^ n := by positivity
  have h2 : pyRoundInt (x * 10 ^ n) ≤ B * 10 ^ n := by
    apply pyRoundInt_le
    push_cast
    exact mul_le_mul_of_nonneg_right h (le_of_lt hp)
  have h3 : ((pyRoundInt (x * 10 ^ n)) : ℚ) ≤ ((B * 10 ^ n : ℤ) : ℚ) := by
    exact_mod_cast h2
  unfold pyRound
  rw [div_le_iff hp]
  push_cast at h3 ⊢
  linarith

theorem pyTrunc_nonneg {x : ℚ} (h : 0 ≤ x) : 0 ≤ pyTrunc x := by
  unfold pyTrunc
  rw [if_neg (not_lt.mpr h)]
  exact Int.le_floor.mpr (by simpa using h)

theorem pyTrunc_le {x : ℚ} (h : 0 ≤ x) : (pyTrunc x : ℚ) ≤ x := by
  unfold pyTrunc
  rw [if_neg (not_lt.mpr h)]
  exact Int.floor_le x

/-! ## Claims about `generate_reading` -/

/-- C2: for every intersection, timestamp and outcome of the internal
randomness, the four vehicle-type counts of the reading returned by
`generate_reading` sum exactly to its `vehicle_count`, because the car count
is back-computed as the total minus the other three counts. -/
theorem C2_vehicle_counts_sum (inter : Intersection) (ts : PyDateTime)
    (r : ReadRand) :
    (generate_reading inter ts r).vehicle_types.car +
      (generate_reading inter ts r).vehicle_types.truck +
      (generate_reading inter ts r).vehicle_types.motorcycle +
      (generate_reading inter ts r).vehicle_types.bus =
      (generate_reading inter ts r).vehicle_count := by
  simp only [generate_reading]
  ring

/-- C4: for every intersection with both lane counts at least 2, every
timestamp and every outcome of the internal randomness, the reading's
`occupancy_rate` lies in `[0, 1]` and its `average_speed` in `[5, 35]`. -/
theorem C4_occupancy_speed_bounds (inter : Intersection) (ts : PyDateTime)
    (r : ReadRand) (hns : 2 ≤ inter.lanes_north_south)
    (hew : 2 ≤ inter.lanes_east_west) :
    0 ≤ (generate_reading inter ts r).occupancy_rate ∧
      (generate_reading inter ts r).occupancy_rate ≤ 1 ∧
      5 ≤ (generate_reading inter ts r).average_speed ∧
      (generate_reading inter ts r).average_speed ≤ 35 := by
  simp only [generate_reading]
  set base : ℤ := ((inter.lanes_north_south : ℤ) + inter.lanes_east_west) * 10 with hbase
  set vc0 : ℤ := pyTrunc ((base : ℚ) * get_traffic_multiplier ts.hour r.tmU *
    district_multipliers inter.district * get_weather_impact r.weatherCond) with hvc0
  set vc : ℤ := max 0 (vc0 + r.jitter) with hvc
  have hbasepos : (0 : ℤ) < base := by
    have : (2 : ℤ) ≤ inter.lanes_north_south := by exact_mod_cast hns
    have : (2 : ℤ) ≤ inter.lanes_east_west := by exact_mod_cast hew
    omega
  have hvcnn : (0 : ℤ) ≤ vc := le_max_left 0 _
  set occ : ℚ := min 1 ((vc : ℚ) / ((base * 2 : ℤ) : ℚ)) with hocc
  have hoccnn : 0 ≤ occ := by
    apply le_min (by norm_num)
    apply div_nonneg
    · exact_mod_cast hvcnn
    · have : (0 : ℤ) ≤ base * 2 := by omega
      exact_mod_cast this
  have hocc1 : occ ≤ 1 := min_le_left _ _
  refine ⟨?_, ?_, ?_, ?_⟩
  · have := le_pyRound (A := 0) (x := occ) (n := 3) (by exact_mod_cast hoccnn)
    simpa using this
  · have := pyRound_le (B := 1) (x := occ) (n := 3) (by exact_mod_cast hocc1)
    simpa using this
  · have hsp : (5 : ℚ) ≤ max 5 (35 * (1 - occ * 0.7)) := le_max_left _ _
    have := le_pyRound (A := 5) (x := max 5 (35 * (1 - occ * 0.7))) (n := 2)
      (by exact_mod_cast hsp)
    simpa using this
  · have hsp : max 5 (35 * (1 - occ * 0.7)) ≤ 35 := by
      apply max_le (by norm_num)
      nlinarith
    have := pyRound_le (B := 35) (x := max 5 (35 * (1 - occ * 0.7))) (n := 2)
      (by exact_mod_cast hsp)
    simpa using this

/-- Multiplier found by the time-of-day loop is one of the five band
constants, hence positive. -/
theorem timeBand_pos {hour : ℕ} {m : ℚ} (h : timeBandMult hour = some m) :
    0 < m := by
  unfold timeBandMult at h
  obtain ⟨p, hp, rfl⟩ := Option.map_eq_some'.mp h
  have hmem := List.mem_of_find?_eq_some hp
  fin_cases hmem <;> norm_num

/-- C8: for every hour of day, valid district, valid weather draw and jitter
in `[0.8, 1.2]`, the combined multiplier is strictly positive, and for hours
below 24 the time-of-day loop always matches a band, so the defensive
default `1.0` is never the returned band value. -/
theorem C8_multiplier_positive (hour : ℕ) (u : ℚ) (d c : String)
    (hh : hour < 24) (hu1 : 0.8 ≤ u) (hu2 : u ≤ 1.2)
    (hd : d ∈ ["downtown", "residential", "industrial", "suburban"])
    (hc : c ∈ ["clear", "rain", "heavy_rain", "snow", "fog"]) :
    0 < get_traffic_multiplier hour u * district_multipliers d *
      get_weather_impact c ∧ (timeBandMult hour).isSome := by
  have hsome : ∀ h' < 24, (timeBandMult h').isSome := by decide
  have h2 : 0 < district_multipliers d := by
    fin_cases hd <;> simp [district_multipliers, List.lookup] <;> norm_num
  have h3 : 0 < get_weather_impact c := by
    fin_cases hc <;> simp [get_weather_impact, weather_conditions, List.lookup] <;> norm_num
  refine ⟨?_, hsome hour hh⟩
  have h1 : 0 < get_traffic_multiplier hour u := by
    cases heq : timeBandMult hour with
    | none =>
      have := hsome hour hh
      rw [heq] at this
      simp at this
    | some m =>
      have hm := timeBand_pos heq
      unfold get_traffic_multiplier
      rw [heq]
      exact mul_pos hm (by linarith)
  exact mul_pos (mul_pos h1 h2) h3

/-- C9: for every intersection, timestamp and valid outcome of the internal
randomness, each of the four vehicle-type counts of the generated reading is
non-negative; in particular the back-computed car count cannot go below
zero because the truck, motorcycle and bus fractions are at most
`0.12 + 0.05 + 0.03 = 0.2` of the total. -/
theorem C9_vehicle_counts_nonneg (inter : Intersection) (ts : PyDateTime)
    (r : ReadRand) (hr : r.Valid) :
    0 ≤ (generate_reading inter ts r).vehicle_types.car ∧
      0 ≤ (generate_reading inter ts r).vehicle_types.truck ∧
      0 ≤ (generate_reading inter ts r).vehicle_types.motorcycle ∧
      0 ≤ (generate_reading inter ts r).vehicle_types.bus := by
  obtain ⟨-, -, -, -, -, -, -, hT1, hT2, hM1, hM2, hB1, hB2, -, -, -⟩ := hr
  simp only [generate_reading]
  set vc : ℤ := max 0 (pyTrunc _ + r.jitter) with hvc
  have hvcnn : (0 : ℤ) ≤ vc := le_max_left 0 _
  have hvcq : (0 : ℚ) ≤ (vc : ℚ) := by exact_mod_cast hvcnn
  have htr : 0 ≤ pyTrunc ((vc : ℚ) * r.fTruck) :=
    pyTrunc_nonneg (mul_nonneg hvcq (by linarith))
  have hmo : 0 ≤ pyTrunc ((vc : ℚ) * r.fMoto) :=
    pyTrunc_nonneg (mul_nonneg hvcq (by linarith))
  have hbu : 0 ≤ pyTrunc ((vc : ℚ) * r.fBus) :=
    pyTrunc_nonneg (mul_nonneg hvcq (by linarith))
  refine ⟨?_, htr, hmo, hbu⟩
  have htr' : (pyTrunc ((vc : ℚ) * r.fTruck) : ℚ) ≤ (vc : ℚ) * r.fTruck :=
    pyTrunc_le (mul_nonneg hvcq (by linarith))
  have hmo' : (pyTrunc ((vc : ℚ) * r.fMoto) : ℚ) ≤ (vc : ℚ) * r.fMoto :=
    pyTrunc_le (mul_nonneg hvcq (by linarith))
  have hbu' : (pyTrunc ((vc : ℚ) * r.fBus) : ℚ) ≤ (vc : ℚ) * r.fBus :=
    pyTrunc_le (mul_nonneg hvcq (by linarith))
  have hsum : ((pyTrunc ((vc : ℚ) * r.fTruck) + pyTrunc ((vc : ℚ) * r.fMoto) +
      pyTrunc ((vc : ℚ) * r.fBus) : ℤ) : ℚ) ≤ (vc : ℚ) := by
    push_cast
    nlinarith
  have : pyTrunc ((vc : ℚ) * r.fTruck) + pyTrunc ((vc : ℚ) * r.fMoto) +
      pyTrunc ((vc : ℚ) * r.fBus) ≤ vc := by exact_mod_cast hsum
  omega

/-- Witness for C4 at a concrete intersection, timestamp and draw. -/
theorem C4_witness :
    0 ≤ (generate_reading
        ⟨"INT-0000", "A St & 1 Ave", 0, 0, 2, 2, false, "downtown"⟩
        ⟨12, "2025-01-01T12:00:00"⟩
        ⟨1, "clear", 0, 0.8, 0.1, 0.03, 0.02, 50, "red"⟩).occupancy_rate ∧
      (generate_reading
        ⟨"INT-0000", "A St & 1 Ave", 0, 0, 2, 2, false, "downtown"⟩
        ⟨12, "2025-01-01T12:00:00"⟩
        ⟨1, "clear", 0, 0.8, 0.1, 0.03, 0.02, 50, "red"⟩).occupancy_rate ≤ 1 ∧
      5 ≤ (generate_reading
        ⟨"INT-0000", "A St & 1 Ave", 0, 0, 2, 2, false, "downtown"⟩
        ⟨12, "2025-01-01T12:00:00"⟩
        ⟨1, "clear", 0, 0.8, 0.1, 0.03, 0.02, 50, "red"⟩).average_speed ∧
      (generate_reading
        ⟨"INT-0000", "A St & 1 Ave", 0, 0, 2, 2, false, "downtown"⟩
        ⟨12, "2025-01-01T12:00:00"⟩
        ⟨1, "clear", 0, 0.8, 0.1, 0.03, 0.02, 50, "red"⟩).average_speed ≤ 35 :=
  C4_occupancy_speed_bounds _ _ _ (by decide) (by decide)

/-- Witness for C8 at hour 12, unit jitter, downtown, clear weather. -/
theorem C8_witness :
    0 < get_traffic_multiplier 12 1 * district_multipliers "downtown" *
      get_weather_impact "clear" ∧ (timeBandMult 12).isSome :=
  C8_multiplier_positive 12 1 "downtown" "clear" (by decide) (by norm_num)
    (by norm_num) (by simp) (by simp)

/-- Witness for C9 at a concrete intersection, timestamp and valid draw. -/
theorem C9_witness :
    0 ≤ (generate_reading
        ⟨"INT-0000", "A St & 1 Ave", 0, 0, 2, 2, false, "downtown"⟩
        ⟨12, "2025-01-01T12:00:00"⟩
        ⟨1, "clear", 0, 0.8, 0.1, 0.03, 0.02, 50, "red"⟩).vehicle_types.car ∧
      0 ≤ (generate_reading
        ⟨"INT-0000", "A St & 1 Ave", 0, 0, 2, 2, false, "downtown"⟩
        ⟨12, "2025-01-01T12:00:00"⟩
        ⟨1, "clear", 0, 0.8, 0.1, 0.03, 0.02, 50, "red"⟩).vehicle_types.truck ∧
      0 ≤ (generate_reading
        ⟨"INT-0000", "A St & 1 Ave", 0, 0, 2, 2, false, "downtown"⟩
        ⟨12, "2025-01-01T12:00:00"⟩
        ⟨1, "clear", 0, 0.8, 0.1, 0.03, 0.02, 50, "red"⟩).vehicle_types.motorcycle ∧
      0 ≤ (generate_reading
        ⟨"INT-0000", "A St & 1 Ave", 0, 0, 2, 2, false, "downtown"⟩
        ⟨12, "2025-01-01T12:00:00"⟩
        ⟨1, "clear", 0, 0.8, 0.1, 0.03, 0.02, 50, "red"⟩).vehicle_types.bus :=
  C9_vehicle_counts_nonneg _ _ _
    (by refine ⟨by norm_num, by norm_num, by simp, by norm_num, by norm_num,
      by norm_num, by norm_num, by norm_num, by norm_num, by norm_num,
      by norm_num, by norm_num, by norm_num, by norm_num, by norm_num, by simp⟩)

/-! ## Claims about `generate_weather` -/

/-- C5: across one `generate_weather` call, the emitted condition differs
from the previous condition only when the duration counter was zero at the
start of the call; on such a call the new duration is drawn from `[4, 20]`
and stored decremented by one, and otherwise the condition is unchanged and
the duration decrements by exactly one. -/
theorem C5_weather_transition (s : WeatherState) (r : WRand) (hr : r.Valid) :
    ((generate_weather s r).2.condition =
        (generate_weather s r).1.current_condition) ∧
      ((generate_weather s r).2.condition ≠ s.current_condition →
        s.condition_duration = 0) ∧
      (s.condition_duration = 0 →
        4 ≤ r.newDur ∧ r.newDur ≤ 20 ∧
        (generate_weather s r).1.current_condition = r.newCond ∧
        (generate_weather s r).1.condition_duration = r.newDur - 1) ∧
      (s.condition_duration ≠ 0 →
        (generate_weather s r).1.current_condition = s.current_condition ∧
        (generate_weather s r).1.condition_duration =
          s.condition_duration - 1) := by
  obtain ⟨-, hd1, hd2, -⟩ := hr
  by_cases h : s.condition_duration = 0 <;>
    simp [generate_weather, h, hd1, hd2]

/-- One step of the weather simulator keeps the duration counter
non-negative: after a redraw it lies in `[3, 19]`, otherwise it is the
previous value minus one. -/
theorem weather_step_duration (s : WeatherState) (r : WRand) (hr : r.Valid)
    (hs : 0 ≤ s.condition_duration) :
    0 ≤ (generate_weather s r).1.condition_duration ∧
      (s.condition_duration = 0 →
        3 ≤ (generate_weather s r).1.condition_duration ∧
        (generate_weather s r).1.condition_duration ≤ 19) ∧
      (s.condition_duration ≠ 0 →
        (generate_weather s r).1.condition_duration =
          s.condition_duration - 1) := by
  obtain ⟨-, hd1, hd2, -⟩ := hr
  by_cases h : s.condition_duration = 0 <;>
    simp [generate_weather, h] <;> omega

/-- C10: starting from the initial state (condition `"clear"`, duration 0),
the duration counter is non-negative after every `generate_weather` call:
one valid step preserves non-negativity (landing in `[3, 19]` right after a
redraw and at the previous value minus one otherwise), so every reachable
state has a non-negative counter. -/
theorem C10_duration_nonneg (rs : List WRand) (hrs : ∀ r ∈ rs, r.Valid) :
    0 ≤ (runWeather weatherInit rs).condition_duration ∧
      (∀ s r, r.Valid → 0 ≤ s.condition_duration →
        0 ≤ (generate_weather s r).1.condition_duration ∧
        (s.condition_duration = 0 →
          3 ≤ (generate_weather s r).1.condition_duration ∧
          (generate_weather s r).1.condition_duration ≤ 19) ∧
        (s.condition_duration ≠ 0 →
          (generate_weather s r).1.condition_duration =
            s.condition_duration - 1)) := by
  refine ⟨?_, fun s r hr hs => weather_step_duration s r hr hs⟩
  have main : ∀ (l : List WRand) (s : WeatherState), (∀ r ∈ l, r.Valid) →
      0 ≤ s.condition_duration → 0 ≤ (runWeather s l).condition_duration := by
    intro l
    induction l with
    | nil => intro s _ hs; exact hs
    | cons r tl ih =>
      intro s hl hs
      have hr : r.Valid := hl r (by simp)
      have := (weather_step_duration s r hr hs).1
      simpa [runWeather] using ih (generate_weather s r).1
        (fun x hx => hl x (by simp [hx])) this
  exact main rs weatherInit hrs (by norm_num [weatherInit])

/-- Witness for C5 at the initial state and a concrete valid draw. -/
theorem C5_witness :
    ((generate_weather ⟨"clear", 0⟩ ⟨"rain", 10, 0, 0, 1, 1, 0, "t0"⟩).2.condition =
        (generate_weather ⟨"clear", 0⟩ ⟨"rain", 10, 0, 0, 1, 1, 0, "t0"⟩).1.current_condition) ∧
      ((generate_weather ⟨"clear", 0⟩ ⟨"rain", 10, 0, 0, 1, 1, 0, "t0"⟩).2.condition ≠
          (⟨"clear", 0⟩ : WeatherState).current_condition →
        (⟨"clear", 0⟩ : WeatherState).condition_duration = 0) ∧
      ((⟨"clear", 0⟩ : WeatherState).condition_duration = 0 →
        4 ≤ (10 : ℤ) ∧ (10 : ℤ) ≤ 20 ∧
        (generate_weather ⟨"clear", 0⟩ ⟨"rain", 10, 0, 0, 1, 1, 0, "t0"⟩).1.current_condition = "rain" ∧
        (generate_weather ⟨"clear", 0⟩ ⟨"rain", 10, 0, 0, 1, 1, 0, "t0"⟩).1.condition_duration = 10 - 1) ∧
      ((⟨"clear", 0⟩ : WeatherState).condition_duration ≠ 0 →
        (generate_weather ⟨"clear", 0⟩ ⟨"rain", 10, 0, 0, 1, 1, 0, "t0"⟩).1.current_condition =
          (⟨"clear", 0⟩ : WeatherState).current_condition ∧
        (generate_weather ⟨"clear", 0⟩ ⟨"rain", 10, 0, 0, 1, 1, 0, "t0"⟩).1.condition_duration =
          (⟨"clear", 0⟩ : WeatherState).condition_duration - 1) :=
  C5_weather_transition ⟨"clear", 0⟩ ⟨"rain", 10, 0, 0, 1, 1, 0, "t0"⟩
    ⟨by simp, by norm_num, by norm_num, by norm_num, by norm_num, by norm_num,
      by norm_num, by norm_num, by norm_num, by norm_num, by norm_num,
      by norm_num, by norm_num⟩

/-- Witness for C10 on a concrete one-step run with a valid draw. -/
theorem C10_witness :
    0 ≤ (runWeather weatherInit
        [⟨"rain", 10, 0, 0, 1, 1, 0, "t0"⟩]).condition_duration ∧
      (∀ s r, r.Valid → 0 ≤ s.condition_duration →
        0 ≤ (generate_weather s r).1.condition_duration ∧
        (s.condition_duration = 0 →
          3 ≤ (generate_weather s r).1.condition_duration ∧
          (generate_weather s r).1.condition_duration ≤ 19) ∧
        (s.condition_duration ≠ 0 →
          (generate_weather s r).1.condition_duration =
            s.condition_duration - 1)) :=
  C10_duration_nonneg [⟨"rain", 10, 0, 0, 1, 1, 0, "t0"⟩]
    (by
      intro x hx
      simp only [List.mem_singleton] at hx
      subst hx
      exact ⟨by simp, by norm_num, by norm_num, by norm_num, by norm_num,
        by norm_num, by norm_num, by norm_num, by norm_num, by norm_num,
        by norm_num, by norm_num, by norm_num⟩)

/-! ## Claims about `send_batch` -/

/-- The `send_batch` loop succeeds whenever every item fits in an empty
batch, and the batches it sends are exactly the pending batch followed by
the remaining items, in order. -/
theorem sendBatchGo_flatten {α : Type} (cap : ℕ) (size : α → ℕ) :
    ∀ (l cur : List α), (∀ x ∈ l, size x ≤ cap) →
      ∃ bs, sendBatchGo cap size l cur = some bs ∧ bs.flatten = cur ++ l := by
  intro l
  induction l with
  | nil =>
    intro cur _
    refine ⟨if cur.length > 0 then [cur] else [], rfl, ?_⟩
    by_cases h : cur.length > 0
    · simp [h]
    · simp at h
      simp [h]
  | cons x xs ih =>
    intro cur hfit
    by_cases h : (cur.map size).sum + size x ≤ cap
    · obtain ⟨bs, hbs, hfl⟩ := ih (cur ++ [x]) (fun y hy => hfit y (by simp [hy]))
      exact ⟨bs, by simp [sendBatchGo, h, hbs], by simp [hfl]⟩
    · have hx : size x ≤ cap := hfit x (by simp)
      obtain ⟨bs, hbs, hfl⟩ := ih [x] (fun y hy => hfit y (by simp [hy]))
      refine ⟨cur :: bs, ?_, by simp [hfl]⟩
      simp [sendBatchGo, h, hx, hbs]

/-- C6: the batch publisher partitions its input into batches in order with
no item duplicated or dropped (the concatenation of the sent batches is the
input) whenever every serialized item fits within the capacity; and for 10
readings of unit size and a capacity of 3, exactly four batches of sizes
(3, 3, 3, 1) are sent. -/
theorem C6_batching :
    (∀ (α : Type) (cap : ℕ) (size : α → ℕ) (l : List α),
      (∀ x ∈ l, size x ≤ cap) →
      ∃ bs, send_batch cap size l = some bs ∧ bs.flatten = l) ∧
    send_batch 3 (fun _ => 1) (List.range 10) =
      some [[0, 1, 2], [3, 4, 5], [6, 7, 8], [9]] ∧
    ((send_batch 3 (fun _ => 1) (List.range 10)).getD []).map List.length =
      [3, 3, 3, 1] := by
  refine ⟨?_, by decide, by decide⟩
  intro α cap size l hfit
  obtain ⟨bs, hbs, hfl⟩ := sendBatchGo_flatten cap size l [] hfit
  exact ⟨bs, hbs, by simpa using hfl⟩

/-- Witness for C6's universally quantified part at a concrete input. -/
theorem C6_witness :
    ∃ bs, send_batch 2 (fun _ => (1 : ℕ)) [5, 6, 7] = some bs ∧
      bs.flatten = [5, 6, 7] :=
  C6_batching.1 ℕ 2 (fun _ => 1) [5, 6, 7] (by decide)

/-! ## Claims about `_validate_schema` -/

/-- The schema loop records exactly the per-field categorized errors, one
per violating field, in field order. -/
theorem validateSchemaAux_eq_filterMap (msg : Message) :
    ∀ flds, validateSchemaAux msg flds = flds.filterMap (checkField msg) := by
  intro flds
  induction flds with
  | nil => rfl
  | cons fld rest ih =>
    simp only [validateSchemaAux, checkField, List.filterMap_cons]
    cases h : List.lookup fld.1 msg with
    | none => simp [ih]
    | some v =>
      by_cases hv : v = PyVal.pyNone
      · simp [hv, ih]
      · by_cases hi : isinst v fld.2
        · simp [hv, hi, ih]
        · simp [hv, hi, ih]

/-- One field check passes exactly when the field is present, non-null and
of its expected type. -/
theorem checkField_eq_none (msg : Message) (fld : String × PyType) :
    checkField msg fld = none ↔
      ∃ v, List.lookup fld.1 msg = some v ∧ v ≠ PyVal.pyNone ∧
        isinst v fld.2 = true := by
  unfold checkField
  cases h : List.lookup fld.1 msg with
  | none => simp
  | some v =>
    by_cases hv : v = PyVal.pyNone
    · simp [hv]
    · by_cases hi : isinst v fld.2
      · simp [hv, hi]
      · simp [hv, hi]

/-- C7: the schema phase examines all 13 required fields, recording exactly
one categorized error per violating field (it never stops at the first
failure), so the error list is empty precisely when every required field is
present, non-null and of its expected type; in particular a message missing
`sensor_id` yields the corresponding schema error. -/
theorem C7_schema_phase :
    REQUIRED_FIELDS.length = 13 ∧
      (∀ msg : Message,
        validate_schema msg = REQUIRED_FIELDS.filterMap (checkField msg)) ∧
      (∀ msg : Message, validate_schema msg = [] ↔
        ∀ fld ∈ REQUIRED_FIELDS, ∃ v, List.lookup fld.1 msg = some v ∧
          v ≠ PyVal.pyNone ∧ isinst v fld.2 = true) ∧
      validate_schema msgMissingSensorId = ["Missing field: sensor_id"] := by
  refine ⟨by decide, fun msg => validateSchemaAux_eq_filterMap msg _, ?_, by decide⟩
  intro msg
  rw [validate_schema, validateSchemaAux_eq_filterMap, List.filterMap_eq_nil_iff]
  constructor
  · intro h fld hfld
    exact (checkField_eq_none msg fld).mp (h fld hfld)
  · intro h fld hfld
    exact (checkField_eq_none msg fld).mpr (h fld hfld)

/-! ## Digit-list facts for the intersection identifiers -/

theorem decodeLE_cons (d : ℕ) (l : List ℕ) :
    decodeLE (d :: l) = d + 10 * decodeLE l := rfl

theorem digitsAux_decode :
    ∀ fuel n, n ≤ fuel → decodeLE (digitsAux fuel n) = n := by
  intro fuel
  induction fuel with
  | zero =>
    intro n hn
    have : n = 0 := by omega
    subst this
    rfl
  | succ fuel ih =>
    intro n hn
    by_cases h : n = 0
    · subst h; simp [digitsAux, decodeLE]
    · have hrec := ih (n / 10) (by omega)
      simp [digitsAux, h, decodeLE_cons, hrec]
      omega

theorem decodeLE_nil : decodeLE [] = 0 := rfl

theorem decodeLE_replicate_zero : ∀ k, decodeLE (List.replicate k 0) = 0 := by
  intro k
  induction k with
  | zero => rfl
  | succ k ih => simp [List.replicate_succ, decodeLE_cons, ih]

theorem decodeLE_append_replicate (l : List ℕ) (k : ℕ) :
    decodeLE (l ++ List.replicate k 0) = decodeLE l := by
  induction l with
  | nil => simp [decodeLE_nil, decodeLE_replicate_zero]
  | cons d t ih => simp [decodeLE_cons, ih]

theorem pad2_decode (n : ℕ) : decodeLE (pad2 n).reverse = n := by
  have h1 : (pad2 n).reverse = digitsLE n ++
      List.replicate (2 - (digitsBE n).length) 0 := by
    simp [pad2, digitsBE, List.reverse_append]
  rw [h1, decodeLE_append_replicate]
  exact digitsAux_decode n n le_rfl

theorem pad2_inj {a b : ℕ} (h : pad2 a = pad2 b) : a = b := by
  have := congrArg (fun l => decodeLE (List.reverse l)) h
  simpa [pad2_decode] using this

theorem digitsAux_length_le :
    ∀ fuel k n, n ≤ fuel → n < 10 ^ k → (digitsAux fuel n).length ≤ k := by
  intro fuel
  induction fuel with
  | zero =>
    intro k n hn _
    have : n = 0 := by omega
    subst this
    simp [digitsAux]
  | succ fuel ih =>
    intro k n hn hk
    by_cases h : n = 0
    · subst h; simp [digitsAux]
    · match k with
      | 0 => simp at hk; omega
      | k + 1 =>
        have hrec := ih k (n / 10) (by omega) (by
          have : 10 ^ (k + 1) = 10 ^ k * 10 := by ring
          rw [this] at hk
          omega)
        simp [digitsAux, h]
        omega

theorem pad2_length_eq_two {n : ℕ} (h : n < 100) : (pad2 n).length = 2 := by
  have hlen : (digitsLE n).length ≤ 2 :=
    digitsAux_length_le n 2 n le_rfl (by norm_num; omega)
  simp only [pad2, List.length_append, List.length_replicate, digitsBE,
    List.length_reverse]
  omega

theorem pad2_one_hundred : pad2 100 = [1, 0, 0] := by decide

theorem digitsAux_lt : ∀ fuel n d, d ∈ digitsAux fuel n → d < 10 := by
  intro fuel
  induction fuel with
  | zero => intro n d hd; simp [digitsAux] at hd
  | succ fuel ih =>
    intro n d hd
    by_cases h : n = 0
    · subst h; simp [digitsAux] at hd
    · simp only [digitsAux, if_neg h, List.mem_cons] at hd
      rcases hd with hd | hd
      · omega
      · exact ih _ _ hd

theorem pad2_lt (n : ℕ) : ∀ d ∈ pad2 n, d < 10 := by
  intro d hd
  simp only [pad2, List.mem_append, List.mem_replicate, digitsBE,
    List.mem_reverse] at hd
  rcases hd with ⟨-, rfl⟩ | hd
  · omega
  · exact digitsAux_lt n n d hd

theorem digitChar_inj10 :
    ∀ a < 10, ∀ b < 10, Nat.digitChar a = Nat.digitChar b → a = b := by
  decide

theorem map_digitChar_inj :
    ∀ l1 l2 : List ℕ, (∀ d ∈ l1, d < 10) → (∀ d ∈ l2, d < 10) →
      l1.map Nat.digitChar = l2.map Nat.digitChar → l1 = l2 := by
  intro l1
  induction l1 with
  | nil =>
    intro l2 _ _ h
    cases l2 with
    | nil => rfl
    | cons b t => simp at h
  | cons a t ih =>
    intro l2 h1 h2 h
    cases l2 with
    | nil => simp at h
    | cons b t2 =>
      simp only [List.map_cons, List.cons.injEq] at h
      have hab : a = b := digitChar_inj10 a (h1 a (by simp)) b (h2 b (by simp)) h.1
      have := ih t2 (fun d hd => h1 d (by simp [hd])) (fun d hd => h2 d (by simp [hd])) h.2
      rw [hab, this]

theorem pad2_len_ge (n : ℕ) : 2 ≤ (pad2 n).length := by
  simp only [pad2, List.length_append, List.length_replicate]
  omega

theorem len2_exists {l : List ℕ} (h : l.length = 2) : ∃ a b, l = [a, b] := by
  match l, h with
  | [a, b], _ => exact ⟨a, b, rfl⟩

theorem pad2_len_cases {n : ℕ} (h : n ≤ 100) :
    (pad2 n).length = 2 ∨ (n = 100 ∧ pad2 n = [1, 0, 0]) := by
  by_cases h100 : n = 100
  · exact Or.inr ⟨h100, by rw [h100]; exact pad2_one_hundred⟩
  · exact Or.inl (pad2_length_eq_two (by omega))

theorem pad2_append_ne {a b c d : ℕ} (hP : pad2 a = [1, 0, 0])
    (hL : (pad2 c).length = 2) (hd : d ≤ 100) :
    pad2 a ++ pad2 b ≠ pad2 c ++ pad2 d := by
  intro h
  obtain ⟨x, y, hxy⟩ := len2_exists hL
  rw [hP, hxy] at h
  simp only [List.cons_append, List.nil_append, List.cons.injEq] at h
  obtain ⟨-, -, htail⟩ := h
  have hlen : (pad2 d).length = (pad2 b).length + 1 := by
    rw [← htail]; simp
  have hb2 := pad2_len_ge b
  rcases pad2_len_cases hd with hd2 | ⟨-, hd100⟩
  · omega
  · rw [hd100] at htail
    simp at htail

theorem pad2_append_inj {i1 j1 i2 j2 : ℕ} (hi1 : i1 ≤ 100) (hj1 : j1 ≤ 100)
    (hi2 : i2 ≤ 100) (hj2 : j2 ≤ 100)
    (h : pad2 i1 ++ pad2 j1 = pad2 i2 ++ pad2 j2) : i1 = i2 ∧ j1 = j2 := by
  rcases pad2_len_cases hi1 with hL1 | ⟨h1e, hP1⟩ <;>
    rcases pad2_len_cases hi2 with hL2 | ⟨h2e, hP2⟩
  · obtain ⟨ha, hb⟩ := List.append_inj h (hL1.trans hL2.symm)
    exact ⟨pad2_inj ha, pad2_inj hb⟩
  · exact absurd h.symm (pad2_append_ne hP2 hL1 hj1)
  · exact absurd h (pad2_append_ne hP1 hL2 hj2)
  · rw [hP1, hP2] at h
    obtain ⟨-, hb⟩ := List.append_inj h rfl
    subst h1e h2e
    exact ⟨rfl, pad2_inj hb⟩

theorem intersectionId_inj {i1 j1 i2 j2 : ℕ} (hi1 : i1 ≤ 100) (hj1 : j1 ≤ 100)
    (hi2 : i2 ≤ 100) (hj2 : j2 ≤ 100)
    (h : intersectionId i1 j1 = intersectionId i2 j2) : i1 = i2 ∧ j1 = j2 := by
  unfold intersectionId at h
  injection h with hdata
  rw [List.append_assoc, List.append_assoc] at hdata
  have h2 := List.append_cancel_left hdata
  simp only [pad2Chars, ← List.map_append] at h2
  have h3 := map_digitChar_inj _ _
    (by
      intro d hd
      rcases List.mem_append.mp hd with hd | hd
      · exact pad2_lt i1 d hd
      · exact pad2_lt j1 d hd)
    (by
      intro d hd
      rcases List.mem_append.mp hd with hd | hd
      · exact pad2_lt i2 d hd
      · exact pad2_lt j2 d hd)
    h2
  exact pad2_append_inj hi1 hj1 hi2 hj2 h3

/-- The identifiers of a generated grid, cell by cell. -/
theorem grid_ids_eq (latb lonb : ℚ) (o : ℕ → ℕ → CellRand) (N : ℕ) :
    (generate_intersections latb lonb N o).map Intersection.intersection_id =
      (List.range N).flatMap fun i =>
        (List.range N).map fun j => intersectionId i j := by
  simp [generate_intersections, List.map_flatMap, List.map_map, mkIntersection,
    Function.comp_def]

/-- C3 (amended): for every centre, oracle and grid size `N`, the grid
builder produces exactly `N * N` intersections, and for `N ≤ 101` their
identifiers are pairwise distinct.  (For `N ≥ 102` the `f"INT-{i:02d}{j:02d}"`
format collides, see the counterexample.) -/
theorem C3_count_and_unique_ids (latb lonb : ℚ) (o : ℕ → ℕ → CellRand)
    (N : ℕ) :
    (generate_intersections latb lonb N o).length = N * N ∧
    (N ≤ 101 →
      ((generate_intersections latb lonb N o).map
        Intersection.intersection_id).Nodup) := by
  constructor
  · simp [generate_intersections, List.length_flatMap, Function.comp_def, List.length_map, List.map_const',
      List.sum_replicate, smul_eq_mul]
  · intro hN
    rw [grid_ids_eq]
    apply List.nodup_flatMap.mpr
    constructor
    · intro i hi
      have hiN : i ≤ 100 := by
        have := List.mem_range.mp hi
        omega
      apply List.Nodup.map_on ?_ (List.nodup_range _)
      intro j1 h1 j2 h2 heq
      have hj1 : j1 ≤ 100 := by
        have := List.mem_range.mp h1
        omega
      have hj2 : j2 ≤ 100 := by
        have := List.mem_range.mp h2
        omega
      exact (intersectionId_inj hiN hj1 hiN hj2 heq).2
    · apply List.Nodup.pairwise_of_forall_ne (List.nodup_range _)
      intro a ha b hb hab
      have haN : a ≤ 100 := by
        have := List.mem_range.mp ha
        omega
      have hbN : b ≤ 100 := by
        have := List.mem_range.mp hb
        omega
      simp only [Function.onFun]
      intro x hxa hxb
      obtain ⟨ja, hja, rfl⟩ := List.mem_map.mp hxa
      obtain ⟨jb, hjb, heq⟩ := List.mem_map.mp hxb
      have hjaN : ja ≤ 100 := by
        have := List.mem_range.mp hja
        omega
      have hjbN : jb ≤ 100 := by
        have := List.mem_range.mp hjb
        omega
      exact hab (intersectionId_inj hbN hjbN haN hjaN heq).1.symm

/-- Counterexample to C3 as stated: at grid size 102 the identifier format
collides — cells (10, 100) and (101, 0) both get `"INT-10100"` — so the
generated identifiers are not pairwise distinct for every `N > 0`. -/
theorem C3_counterexample :
    intersectionId 10 100 = intersectionId 101 0 ∧
    ((10 : ℕ), (100 : ℕ)) ≠ ((101 : ℕ), (0 : ℕ)) ∧
    ¬ (((generate_intersections 0 0 102 (fun _ _ => ⟨2, 2, 0⟩)).map
        Intersection.intersection_id).Nodup) := by
  have hid : intersectionId 10 100 = intersectionId 101 0 := by decide
  refine ⟨hid, by decide, ?_⟩
  intro hnd
  rw [grid_ids_eq] at hnd
  have hpair := (List.nodup_flatMap.mp hnd).2
  have hdisj := (List.pairwise_iff_get.mp hpair) ⟨10, by simp⟩ ⟨101, by simp⟩
    (by norm_num [Fin.mk_lt_mk])
  simp only [List.get_eq_getElem, List.getElem_range, Function.onFun] at hdisj
  exact hdisj (List.mem_map.mpr ⟨100, by simp, rfl⟩)
    (List.mem_map.mpr ⟨0, by simp, hid.symm⟩)

/-- Witness for the amended C3 at grid size 2. -/
theorem C3_witness :
    (generate_intersections 0 0 2 (fun _ _ => ⟨2, 2, 0⟩)).length = 2 * 2 ∧
    ((generate_intersections 0 0 2 (fun _ _ => ⟨2, 2, 0⟩)).map
      Intersection.intersection_id).Nodup :=
  ⟨(C3_count_and_unique_ids 0 0 (fun _ _ => ⟨2, 2, 0⟩) 2).1,
   (C3_count_and_unique_ids 0 0 (fun _ _ => ⟨2, 2, 0⟩) 2).2 (by norm_num)⟩

/-- C1, evaluated at the failing input: the source labels cell (5, 5) of a
10-grid — the cell placed exactly at the city centre by the coordinate
offsets — as `"suburban"`, while distance from the grid's geometric centre
(as the claim states) would make it `"downtown"`; the source measures
distance from the grid origin cell (0, 0) instead. -/
theorem C1_district_measured_from_origin :
    districtOf 5 5 = "suburban" ∧
    districtSpecCenter 10 5 5 = "downtown" ∧
    ((generate_intersections 0 0 10 (fun _ _ => ⟨2, 2, 0⟩)).map
      Intersection.district)[55]? = some "suburban" := by
  refine ⟨by decide, ?_, by decide⟩
  norm_num [districtSpecCenter]
